import Mathlib

/-!
Verification of the booking creation and lookup workflow of the Reservation
backend (src/backend/server.js): identifier validation, the booking store,
the POST /api/bookings, GET /api/bookings/:userId, GET /bookings and
POST /api/payment handlers, and the userAvailability route.

Route handlers are embedded as pure Lean functions over an explicit store
state.  Infrastructure failures of the document store and of the payment
gateway are modelled by optional failure messages carried in the state; the
store counts the save/find operations issued to it so that "the handler did
not touch the store" is expressible.
-/

namespace Reservation

/-- A hexadecimal digit, as accepted by a MongoDB ObjectId string. -/
def isHexDigit (c : Char) : Bool :=
  c.isDigit || ('a' ≤ c && c ≤ 'f') || ('A' ≤ c && c ≤ 'F')

/-- Modelled from the spec: `mongoose.Types.ObjectId.isValid` (the mongoose
library is an external collaborator, not in src).  Per spec §4.1 an identifier
is well-formed when it is a 24-character hex object reference. -/
def isValidObjectId (s : String) : Bool :=
  s.length == 24 && s.data.all isHexDigit

/-- The body of a POST /api/bookings request after
`const { userId, restaurantId, date, time, seats, amountPaid, confirmationCode } = req.body`:
each field is present (`some`) or missing/undefined (`none`). -/
structure BookingRequest where
  userId : Option String
  restaurantId : Option String
  date : Option String
  time : Option String
  seats : Option Int
  amountPaid : Option Int
  confirmationCode : Option String
deriving Repr, DecidableEq

/-- The seven booking fields once validation has extracted them. -/
structure BookingFields where
  userId : String
  restaurantId : String
  date : String
  time : String
  seats : Int
  amountPaid : Int
  confirmationCode : String
deriving Repr, DecidableEq

/-- A persisted Booking document: the request fields plus the
store-generated id. -/
structure Booking where
  id : Nat
  userId : String
  restaurantId : String
  date : String
  time : String
  seats : Int
  amountPaid : Int
  confirmationCode : String
deriving Repr, DecidableEq

/-- A Restaurant document, as resolved by `.populate("restaurantId")`. -/
structure Restaurant where
  id : String
  name : String
deriving Repr, DecidableEq

/-- Modelled from the spec: validation performed by the Booking Mongoose
schema at the persistence boundary (src/backend/models/Booking.js is not in
src).  Per spec §3 and §4.2: all seven fields are required; `userId` and
`restaurantId` must be well-formed identifiers (they are object references,
so a malformed value fails to cast); `seats` must be positive and
`amountPaid` non-negative.  A violation rejects the save with an error. -/
def bookingValidate (r : BookingRequest) : Except String BookingFields :=
  match r.userId, r.restaurantId, r.date, r.time, r.seats, r.amountPaid, r.confirmationCode with
  | some u, some rid, some d, some t, some k, some a, some c =>
    if !isValidObjectId u then
      Except.error "Booking validation failed: userId: Cast to ObjectId failed"
    else if !isValidObjectId rid then
      Except.error "Booking validation failed: restaurantId: Cast to ObjectId failed"
    else if k ≤ 0 then
      Except.error "Booking validation failed: seats must be a positive integer"
    else if a < 0 then
      Except.error "Booking validation failed: amountPaid must be non-negative"
    else
      Except.ok ⟨u, rid, d, t, k, a, c⟩
  | _, _, _, _, _, _, _ =>
    Except.error "Booking validation failed: missing required field"

/-- The booking record store.  `bookings` is the persisted collection in
insertion order, `nextId` the next fresh document id, `restaurants` the
collection that `.populate` resolves against.  `saveFailMsg` / `findFailMsg`
model an infrastructure failure of the corresponding operation (the
underlying exception's message); `saveAttempts` / `findAttempts` count the
operations issued to the store. -/
structure Store where
  bookings : List Booking
  restaurants : List Restaurant
  nextId : Nat
  saveFailMsg : Option String
  findFailMsg : Option String
  saveAttempts : Nat
  findAttempts : Nat
deriving Repr, DecidableEq

/-- Build the Booking document that `new Booking({...}).save()` persists. -/
def mkBooking (id : Nat) (f : BookingFields) : Booking :=
  ⟨id, f.userId, f.restaurantId, f.date, f.time, f.seats, f.amountPaid, f.confirmationCode⟩

/-- `newBooking.save()`: always issues the operation to the store; fails when
the store is down or the schema rejects the document, otherwise appends the
document with a fresh generated id and returns it. -/
def Store.save (s : Store) (r : BookingRequest) : Except String Booking × Store :=
  let s1 : Store := { s with saveAttempts := s.saveAttempts + 1 }
  match s.saveFailMsg with
  | some m => (Except.error m, s1)
  | none =>
    match bookingValidate r with
    | Except.error m => (Except.error m, s1)
    | Except.ok f =>
      let b := mkBooking s.nextId f
      (Except.ok b,
        { s1 with bookings := s1.bookings ++ [b], nextId := s.nextId + 1 })

/-- `Booking.find({ userId })`: always issues the operation; fails when the
store is down, or when the malformed key fails to cast to an object id;
otherwise returns the owner's bookings in insertion order. -/
def Store.find (s : Store) (userId : String) : Except String (List Booking) × Store :=
  let s1 : Store := { s with findAttempts := s.findAttempts + 1 }
  match s.findFailMsg with
  | some m => (Except.error m, s1)
  | none =>
    if isValidObjectId userId then
      (Except.ok (s.bookings.filter (fun b => b.userId == userId)), s1)
    else
      (Except.error "Cast to ObjectId failed for value at path userId", s1)

/-- Look a restaurant up by its id, as `.populate("restaurantId")` does. -/
def lookupRestaurant (rs : List Restaurant) (rid : String) : Option Restaurant :=
  rs.find? (fun x => x.id == rid)

/-- A booking with its restaurant reference expanded. -/
structure PopulatedBooking where
  booking : Booking
  restaurant : Option Restaurant
deriving Repr, DecidableEq

/-- Expand one booking's restaurant reference against the store. -/
def populateBooking (s : Store) (b : Booking) : PopulatedBooking :=
  ⟨b, lookupRestaurant s.restaurants b.restaurantId⟩

/-- Response of the POST /api/bookings handler. -/
structure PostBookingResponse where
  status : Nat
  booking : Option Booking
  message : Option String
deriving Repr, DecidableEq

/-- The POST /api/bookings handler (server.js lines 149-167): destructure the
body, construct a Booking, `save()` it; 201 with the saved document on
success; every thrown error is caught and answered with
`500 { message: "Server error: " + error.message }`. -/
def postBookings (s : Store) (r : BookingRequest) : PostBookingResponse × Store :=
  match Store.save s r with
  | (Except.ok b, s') => (⟨201, some b, none⟩, s')
  | (Except.error m, s') => (⟨500, none, some ("Server error: " ++ m)⟩, s')

/-- Response of the GET /api/bookings/:userId handler. -/
structure UserBookingsResponse where
  status : Nat
  bookings : Option (List PopulatedBooking)
  message : Option String
deriving Repr, DecidableEq

/-- The GET /api/bookings/:userId handler (server.js lines 169-182):
`Booking.find({ userId }).populate("restaurantId")`; 404 when the result is
empty, 200 with the populated array otherwise, 500 on any thrown error. -/
def getUserBookings (s : Store) (userId : String) : UserBookingsResponse × Store :=
  match Store.find s userId with
  | (Except.ok l, s') =>
    if l.length == 0 then
      (⟨404, none, some "No bookings found"⟩, s')
    else
      (⟨200, some (l.map (populateBooking s)), none⟩, s')
  | (Except.error _, s') => (⟨500, none, some "Error fetching bookings"⟩, s')

/-- Response of the GET /bookings handler. -/
structure QueryBookingsResponse where
  status : Nat
  bookings : Option (List Booking)
  err : Option String
deriving Repr, DecidableEq

/-- The GET /bookings handler (server.js lines 201-216): 400 when the
`userId` query parameter is absent or falsy, 400 when it fails
`mongoose.Types.ObjectId.isValid`, otherwise `Booking.find({ userId })`
with 200 + raw array on success and 500 on a thrown error. -/
def queryBookings (s : Store) (userId : Option String) : QueryBookingsResponse × Store :=
  match userId with
  | none => (⟨400, none, some "userId is required"⟩, s)
  | some u =>
    if u == "" then
      (⟨400, none, some "userId is required"⟩, s)
    else if !isValidObjectId u then
      (⟨400, none, some "Invalid userId format"⟩, s)
    else
      match Store.find s u with
      | (Except.ok l, s') => (⟨200, some l, none⟩, s')
      | (Except.error _, s') => (⟨500, none, some "Internal server error"⟩, s')

/-- A Razorpay payment order. -/
structure PaymentOrder where
  amount : Int
  currency : String
  receipt : String
deriving Repr, DecidableEq

/-- The receipt identifier generated by the payment route:
`order_rcptid_${Date.now()}`, a pure function of the current millisecond
timestamp. -/
def paymentReceipt (nowMs : Nat) : String :=
  "order_rcptid_" ++ toString nowMs

/-- The options object built by the payment route: the major-unit amount
times 100 (paise), the currency, and the timestamp receipt. -/
def paymentOptions (amount : Int) (currency : String) (nowMs : Nat) : PaymentOrder :=
  ⟨amount * 100, currency, paymentReceipt nowMs⟩

/-- Modelled from the spec: `razorpay.orders.create(options)` (the gateway
is an external collaborator).  On success the created order carries the
options' amount, currency and receipt; a gateway failure rejects with an
error. -/
def razorpayCreate (gatewayFailMsg : Option String) (o : PaymentOrder) :
    Except String PaymentOrder :=
  match gatewayFailMsg with
  | some m => Except.error m
  | none => Except.ok o

/-- Response of the POST /api/payment handler. -/
structure PaymentResponse where
  status : Nat
  order : Option PaymentOrder
  err : Option String
deriving Repr, DecidableEq

/-- The POST /api/payment handler (server.js lines 185-199): build the
options with `amount * 100` and the `Date.now()` receipt, create the gateway
order, answer 200 with the order, or 500 on a gateway error. -/
def postPayment (gatewayFailMsg : Option String) (nowMs : Nat)
    (amount : Int) (currency : String) : PaymentResponse :=
  match razorpayCreate gatewayFailMsg (paymentOptions amount currency nowMs) with
  | Except.ok order => ⟨200, some order, none⟩
  | Except.error _ => ⟨500, none, some "Failed to create order"⟩

/-- Response of the GET /api/userAvailability/:userId/availability handler. -/
structure AvailabilityResponse where
  status : Nat
  userId : String
  availability : Bool
deriving Repr, DecidableEq

/-- The GET /api/userAvailability/:userId/availability handler (server.js
lines 218-221): echoes the path parameter with `availability: true`,
unconditionally, touching nothing. -/
def getUserAvailability (s : Store) (userId : String) : AvailabilityResponse × Store :=
  (⟨200, userId, true⟩, s)

/-- A sequence of createBooking calls, threading the store. -/
def runCreates : Store → List BookingRequest → List (Except String Booking) × Store
  | s, [] => ([], s)
  | s, r :: rs =>
    let p := Store.save s r
    let q := runCreates p.2 rs
    (p.1 :: q.1, q.2)

/-- The bookings returned by the successful calls of a run. -/
def okBookings (l : List (Except String Booking)) : List Booking :=
  l.filterMap (fun e => match e with | Except.ok b => some b | Except.error _ => none)

/-- The data-model invariant of spec §3 on every persisted booking. -/
def StoreInv (s : Store) : Prop :=
  ∀ b ∈ s.bookings, 0 < b.seats ∧ 0 ≤ b.amountPaid

/-- Whether a request is missing one of the seven required fields. -/
def missingRequiredField (r : BookingRequest) : Prop :=
  r.userId = none ∨ r.restaurantId = none ∨ r.date = none ∨ r.time = none ∨
    r.seats = none ∨ r.amountPaid = none ∨ r.confirmationCode = none

/-- A store with no documents and a healthy connection. -/
def emptyStore : Store := ⟨[], [], 0, none, none, 0, 0⟩

/-- A malformed identifier: not 24 hex characters. -/
def badId : String := "not-an-object-id"

/-- A well-formed user identifier (spec §8, Scenario 1). -/
def goodUserId : String := "507f1f77bcf86cd799439011"

/-- A well-formed restaurant identifier (spec §8, Scenario 1). -/
def goodRestaurantId : String := "507f191e810c19729de860ea"

/-- A fully valid booking request (spec §8, Scenario 1). -/
def validReq : BookingRequest :=
  ⟨some goodUserId, some goodRestaurantId, some "2024-05-01", some "19:00",
    some 2, some 500, some "order_rcptid_1234"⟩

/-- Scenario 1's request with a malformed userId. -/
def badUserReq : BookingRequest :=
  { validReq with userId := some badId }

/-- Scenario 1's request with the userId missing. -/
def missingUserReq : BookingRequest :=
  { validReq with userId := none }

/-- Scenario 1's request with zero seats. -/
def zeroSeatsReq : BookingRequest :=
  { validReq with seats := some 0 }

/-- Scenario 1's request with a negative amountPaid. -/
def negAmountReq : BookingRequest :=
  { validReq with amountPaid := some (-5) }

/-- The validated fields of `validReq`. -/
def validFields : BookingFields :=
  ⟨goodUserId, goodRestaurantId, "2024-05-01", "19:00", 2, 500, "order_rcptid_1234"⟩

/-- Scenario 1's booking as persisted into the empty store. -/
def demoBooking : Booking :=
  ⟨0, goodUserId, goodRestaurantId, "2024-05-01", "19:00", 2, 500, "order_rcptid_1234"⟩

/-- A healthy store already holding `demoBooking`. -/
def demoStore : Store := ⟨[demoBooking], [], 1, none, none, 0, 0⟩

/-- A store whose save operation fails with the internal message "boom". -/
def boomStore : Store := { emptyStore with saveFailMsg := some "boom" }

/-- A store whose save operation fails with the internal message "zap". -/
def zapStore : Store := { emptyStore with saveFailMsg := some "zap" }

/-! ## Helper lemmas -/

theorem bookingValidate_ok {r : BookingRequest} {f : BookingFields}
    (h : bookingValidate r = Except.ok f) :
    r.userId = some f.userId ∧ r.restaurantId = some f.restaurantId ∧
    r.date = some f.date ∧ r.time = some f.time ∧ r.seats = some f.seats ∧
    r.amountPaid = some f.amountPaid ∧ r.confirmationCode = some f.confirmationCode ∧
    isValidObjectId f.userId = true ∧ isValidObjectId f.restaurantId = true ∧
    0 < f.seats ∧ 0 ≤ f.amountPaid := by
  unfold bookingValidate at h
  split at h
  · split_ifs at h with h1 h2 h3 h4
    injection h with h5
    subst h5
    simp_all
  · exact absurd h (by simp)

theorem bookingValidate_error_of_bad_user {r : BookingRequest} {u : String}
    (hr : r.userId = some u) (hu : isValidObjectId u = false) :
    ∃ m, bookingValidate r = Except.error m := by
  unfold bookingValidate
  split
  · rename_i heq _ _ _ _ _ _
    rw [hr] at heq
    injection heq with heq
    subst heq
    simp [hu]
  · exact ⟨_, rfl⟩

theorem bookingValidate_missing {r : BookingRequest} (h : missingRequiredField r) :
    bookingValidate r = Except.error "Booking validation failed: missing required field" := by
  unfold bookingValidate
  split
  · rename_i h1 h2 h3 h4 h5 h6 h7
    rcases h with h0 | h0 | h0 | h0 | h0 | h0 | h0 <;> simp_all
  · rfl

theorem save_ok_of_valid {s : Store} {r : BookingRequest} {f : BookingFields}
    (hv : bookingValidate r = Except.ok f) (hs : s.saveFailMsg = none) :
    Store.save s r =
      (Except.ok (mkBooking s.nextId f),
        { s with saveAttempts := s.saveAttempts + 1,
                 bookings := s.bookings ++ [mkBooking s.nextId f],
                 nextId := s.nextId + 1 }) := by
  simp [Store.save, hs, hv]

theorem save_preserves (s : Store) (r : BookingRequest) :
    (Store.save s r).2.saveFailMsg = s.saveFailMsg ∧
    (Store.save s r).2.findFailMsg = s.findFailMsg ∧
    (Store.save s r).2.restaurants = s.restaurants ∧
    s.nextId ≤ (Store.save s r).2.nextId ∧
    (∀ b ∈ s.bookings, b ∈ (Store.save s r).2.bookings) := by
  unfold Store.save
  cases hm : s.saveFailMsg
  · cases hv : bookingValidate r <;> simp
    exact fun b hb => Or.inl hb
  · simp

theorem save_ok_inv {s : Store} {r : BookingRequest} {b : Booking}
    (h : (Store.save s r).1 = Except.ok b) :
    b.id = s.nextId ∧ (Store.save s r).2.nextId = s.nextId + 1 ∧
    b ∈ (Store.save s r).2.bookings := by
  unfold Store.save at h
  cases hm : s.saveFailMsg
  · cases hv : bookingValidate r
    · simp [hm, hv] at h
    · simp [hm, hv] at h
      subst h
      simp [Store.save, hm, hv, mkBooking]
  · simp [hm] at h

theorem find_ok {s : Store} {u : String}
    (hf : s.findFailMsg = none) (hu : isValidObjectId u = true) :
    Store.find s u =
      (Except.ok (s.bookings.filter (fun b => b.userId == u)),
        { s with findAttempts := s.findAttempts + 1 }) := by
  simp [Store.find, hf, hu]

theorem postBookings_store (s : Store) (r : BookingRequest) :
    (postBookings s r).2 = (Store.save s r).2 := by
  unfold postBookings
  rcases h : Store.save s r with ⟨e, s'⟩
  cases e <;> simp

theorem runCreates_preserves (rs : List BookingRequest) (s : Store) :
    (runCreates s rs).2.saveFailMsg = s.saveFailMsg ∧
    (runCreates s rs).2.findFailMsg = s.findFailMsg ∧
    (runCreates s rs).2.restaurants = s.restaurants ∧
    s.nextId ≤ (runCreates s rs).2.nextId ∧
    (∀ b ∈ s.bookings, b ∈ (runCreates s rs).2.bookings) := by
  induction rs generalizing s with
  | nil => simp [runCreates]
  | cons r rs ih =>
    have hsp := save_preserves s r
    have ihp := ih (Store.save s r).2
    simp only [runCreates]
    refine ⟨?_, ?_, ?_, ?_, ?_⟩
    · rw [ihp.1, hsp.1]
    · rw [ihp.2.1, hsp.2.1]
    · rw [ihp.2.2.1, hsp.2.2.1]
    · exact le_trans hsp.2.2.2.1 ihp.2.2.2.1
    · exact fun b hb => ihp.2.2.2.2 b (hsp.2.2.2.2 b hb)

theorem okBookings_ids (rs : List BookingRequest) (s : Store) :
    (∀ b ∈ okBookings (runCreates s rs).1, s.nextId ≤ b.id) ∧
    (okBookings (runCreates s rs).1).Pairwise (fun x y => x.id < y.id) := by
  induction rs generalizing s with
  | nil => simp [runCreates, okBookings]
  | cons r rs ih =>
    have ihp := ih (Store.save s r).2
    have hnext := (save_preserves s r).2.2.2.1
    simp only [runCreates, okBookings, List.filterMap_cons] at *
    cases hres : (Store.save s r).1 with
    | error m =>
      refine ⟨fun b hb => le_trans hnext (ihp.1 b hb), ihp.2⟩
    | ok b =>
      obtain ⟨hid, hnid, _⟩ := save_ok_inv hres
      refine ⟨?_, ?_⟩
      · intro x hx
        rcases List.mem_cons.mp hx with hx | hx
        · subst hx
          omega
        · have := ihp.1 x hx
          omega
      · refine List.pairwise_cons.mpr ⟨?_, ihp.2⟩
        intro y hy
        have := ihp.1 y hy
        omega

theorem okBookings_pairwise_ne (rs : List BookingRequest) (s : Store) :
    (okBookings (runCreates s rs).1).Pairwise (fun x y => x.id ≠ y.id) :=
  ((okBookings_ids rs s).2).imp (fun h => Nat.ne_of_lt h)

/-! ## Claim theorems -/

/-- Claim C1, counterexample: for the malformed userId `badId`, POST
/api/bookings answers 500 (not a 400-class InvalidRequest) and issues a save
to the store, and GET /api/bookings/:userId answers 500 and issues a find —
refuting that both return InvalidRequest and leave the store untouched. -/
theorem c1_counterexample :
    isValidObjectId badId = false ∧
    (postBookings emptyStore badUserReq).1.status = 500 ∧
    (postBookings emptyStore badUserReq).2.saveAttempts = 1 ∧
    (getUserBookings emptyStore badId).1.status = 500 ∧
    (getUserBookings emptyStore badId).2.findAttempts = 1 := by
  decide

/-- Claim C1 as amended: only GET /bookings?userId= validates the userId
format and answers 400 without touching the store; POST /api/bookings and
GET /api/bookings/:userId issue the store operation with the malformed id
and answer 500 when the store rejects it. -/
theorem c1_amended (s : Store) (u : String) (r : BookingRequest)
    (hu : isValidObjectId u = false) (hr : r.userId = some u)
    (hsave : s.saveFailMsg = none) (hfind : s.findFailMsg = none) :
    ((queryBookings s (some u)).1.status = 400 ∧ (queryBookings s (some u)).2 = s) ∧
    ((postBookings s r).1.status = 500 ∧
      (postBookings s r).2.saveAttempts = s.saveAttempts + 1) ∧
    ((getUserBookings s u).1.status = 500 ∧
      (getUserBookings s u).2.findAttempts = s.findAttempts + 1) := by
  obtain ⟨m, hm⟩ := bookingValidate_error_of_bad_user hr hu
  refine ⟨?_, ?_, ?_⟩
  · simp only [queryBookings]
    split_ifs with h1 h2 <;> simp_all
  · simp [postBookings, Store.save, hsave, hm]
  · simp [getUserBookings, Store.find, hfind, hu]

/-- Claim C1 amended, witness at the malformed id `badId`. -/
theorem c1_amended_witness :
    ((queryBookings emptyStore (some badId)).1.status = 400 ∧
      (queryBookings emptyStore (some badId)).2 = emptyStore) ∧
    ((postBookings emptyStore badUserReq).1.status = 500 ∧
      (postBookings emptyStore badUserReq).2.saveAttempts = emptyStore.saveAttempts + 1) ∧
    ((getUserBookings emptyStore badId).1.status = 500 ∧
      (getUserBookings emptyStore badId).2.findAttempts = emptyStore.findAttempts + 1) :=
  c1_amended emptyStore badId badUserReq (by decide) rfl rfl rfl

/-- Claim C2: a valid booking request (all fields present, well-formed
userId, seats > 0, amountPaid ≥ 0) succeeds with 201 and a Booking whose
fields equal the corresponding request fields and whose generated id differs
from the id of every other createBooking call's booking. -/
theorem c2_create_echoes_input_and_ids_unique (s : Store) (r : BookingRequest)
    (f : BookingFields)
    (hv : bookingValidate r = Except.ok f) (hs : s.saveFailMsg = none) :
    ((postBookings s r).1.status = 201 ∧
      (postBookings s r).1.booking = some (mkBooking s.nextId f) ∧
      r.userId = some f.userId ∧ r.restaurantId = some f.restaurantId ∧
      r.date = some f.date ∧ r.time = some f.time ∧ r.seats = some f.seats ∧
      r.amountPaid = some f.amountPaid ∧ r.confirmationCode = some f.confirmationCode) ∧
    ∀ rs, (okBookings (runCreates s rs).1).Pairwise (fun x y => x.id ≠ y.id) := by
  have hsv := save_ok_of_valid hv hs
  have hb := bookingValidate_ok hv
  refine ⟨⟨?_, ?_, hb.1, hb.2.1, hb.2.2.1, hb.2.2.2.1, hb.2.2.2.2.1,
    hb.2.2.2.2.2.1, hb.2.2.2.2.2.2.1⟩, fun rs => okBookings_pairwise_ne rs s⟩
  · simp [postBookings, hsv]
  · simp [postBookings, hsv]

/-- Claim C2, witness at Scenario 1's request against the empty store. -/
theorem c2_witness :
    (postBookings emptyStore validReq).1.status = 201 ∧
    (postBookings emptyStore validReq).1.booking = some (mkBooking emptyStore.nextId validFields) ∧
    (okBookings (runCreates emptyStore [validReq, validReq]).1).Pairwise
      (fun x y => x.id ≠ y.id) :=
  ⟨(c2_create_echoes_input_and_ids_unique emptyStore validReq validFields rfl rfl).1.1,
   (c2_create_echoes_input_and_ids_unique emptyStore validReq validFields rfl rfl).1.2.1,
   (c2_create_echoes_input_and_ids_unique emptyStore validReq validFields rfl rfl).2
     [validReq, validReq]⟩

/-- Claim C3, counterexample: a request with the userId field missing is
answered with status 500, which is not a 400-class InvalidRequest — refuting
that missing required fields fail with a 400-class error. -/
theorem c3_counterexample :
    (postBookings emptyStore missingUserReq).1.status = 500 ∧
    ¬(400 ≤ (postBookings emptyStore missingUserReq).1.status ∧
      (postBookings emptyStore missingUserReq).1.status < 500) := by
  decide

/-- Claim C3 as amended: a createBooking request missing one of the seven
required fields fails, but with a 500-class response whose message wraps the
store's validation error, not with a 400-class InvalidRequest. -/
theorem c3_amended (s : Store) (r : BookingRequest)
    (h : missingRequiredField r) (hs : s.saveFailMsg = none) :
    (postBookings s r).1.status = 500 ∧
    (postBookings s r).1.message =
      some "Server error: Booking validation failed: missing required field" := by
  have hm := bookingValidate_missing h
  simp [postBookings, Store.save, hs, hm]

/-- Claim C3 amended, witness at a request with the userId missing. -/
theorem c3_amended_witness :
    (postBookings emptyStore missingUserReq).1.status = 500 ∧
    (postBookings emptyStore missingUserReq).1.message =
      some "Server error: Booking validation failed: missing required field" :=
  c3_amended emptyStore missingUserReq (Or.inl rfl) rfl

/-- Claim C4: the save is rejected for every request with seats ≤ 0 and for
every request with negative amountPaid, and consequently every persisted
Booking satisfies seats > 0 and amountPaid ≥ 0 (the §3 store invariant is
preserved by createBooking). -/
theorem c4_boundary_rejected (s : Store) (r : BookingRequest) :
    (∀ k : Int, r.seats = some k → k ≤ 0 →
      ∃ m, (Store.save s r).1 = Except.error m) ∧
    (∀ a : Int, r.amountPaid = some a → a < 0 →
      ∃ m, (Store.save s r).1 = Except.error m) ∧
    (StoreInv s → StoreInv (Store.save s r).2) := by
  refine ⟨?_, ?_, ?_⟩
  · intro k hk hk0
    unfold Store.save
    cases hm : s.saveFailMsg
    · cases hv : bookingValidate r with
      | error m => exact ⟨m, by simp⟩
      | ok f =>
        exfalso
        obtain ⟨_, _, _, _, hseats, _, _, _, _, hpos, _⟩ := bookingValidate_ok hv
        rw [hk] at hseats
        injection hseats with hseats
        omega
    · rename_i m
      exact ⟨m, by simp⟩
  · intro a ha ha0
    unfold Store.save
    cases hm : s.saveFailMsg
    · cases hv : bookingValidate r with
      | error m => exact ⟨m, by simp⟩
      | ok f =>
        exfalso
        obtain ⟨_, _, _, _, _, hamt, _, _, _, _, hnn⟩ := bookingValidate_ok hv
        rw [ha] at hamt
        injection hamt with hamt
        omega
    · rename_i m
      exact ⟨m, by simp⟩
  · intro hinv
    unfold Store.save
    cases hm : s.saveFailMsg
    · cases hv : bookingValidate r with
      | error m =>
        intro b hb
        simp at hb
        exact hinv b hb
      | ok f =>
        obtain ⟨_, _, _, _, _, _, _, _, _, hpos, hnn⟩ := bookingValidate_ok hv
        intro b hb
        simp at hb
        rcases hb with hb | hb
        · exact hinv b hb
        · subst hb
          exact ⟨hpos, hnn⟩
    · intro b hb
      simp at hb
      exact hinv b hb

/-- Claim C4, witness: seats = 0 and amountPaid = -5 are rejected against
the empty store, and the persisted-booking invariant holds afterwards. -/
theorem c4_witness :
    (∃ m, (Store.save emptyStore zeroSeatsReq).1 = Except.error m) ∧
    (∃ m, (Store.save emptyStore negAmountReq).1 = Except.error m) ∧
    StoreInv (Store.save emptyStore zeroSeatsReq).2 :=
  ⟨(c4_boundary_rejected emptyStore zeroSeatsReq).1 0 rfl le_rfl,
   (c4_boundary_rejected emptyStore negAmountReq).2.1 (-5) rfl (by decide),
   (c4_boundary_rejected emptyStore zeroSeatsReq).2.2
     (fun b hb => absurd hb (List.not_mem_nil b))⟩

/-- Claim C5: a successful createBooking for owner u, followed by any
further createBooking calls (no store failure in between), leaves the
created Booking retrievable: GET /api/bookings/:userId for u answers 200
with an array containing the persisted booking (restaurant expanded). -/
theorem c5_create_then_list_roundtrip (s : Store) (r : BookingRequest)
    (f : BookingFields) (rs : List BookingRequest)
    (hv : bookingValidate r = Except.ok f) (hsave : s.saveFailMsg = none)
    (hfind : s.findFailMsg = none) :
    ∃ b, (postBookings s r).1.booking = some b ∧
      (getUserBookings (runCreates (postBookings s r).2 rs).2 b.userId).1.status = 200 ∧
      ∃ l, (getUserBookings (runCreates (postBookings s r).2 rs).2 b.userId).1.bookings
            = some l ∧
        populateBooking (runCreates (postBookings s r).2 rs).2 b ∈ l := by
  have hsv := save_ok_of_valid hv hsave
  have h1 : (Store.save s r).1 = Except.ok (mkBooking s.nextId f) := by rw [hsv]
  have hinv := save_ok_inv h1
  have hrp := runCreates_preserves rs (Store.save s r).2
  have hsp := save_preserves s r
  have hpost := postBookings_store s r
  have hbmem : mkBooking s.nextId f ∈ (runCreates (Store.save s r).2 rs).2.bookings :=
    hrp.2.2.2.2 _ hinv.2.2
  have hff : (runCreates (Store.save s r).2 rs).2.findFailMsg = none := by
    rw [hrp.2.1, hsp.2.1, hfind]
  obtain ⟨_, _, _, _, _, _, _, huv, _, _, _⟩ := bookingValidate_ok hv
  have hbu : (mkBooking s.nextId f).userId = f.userId := rfl
  have hfok := find_ok hff (u := (mkBooking s.nextId f).userId) (by rw [hbu]; exact huv)
  have hbl : mkBooking s.nextId f ∈
      (runCreates (Store.save s r).2 rs).2.bookings.filter
        (fun x => x.userId == (mkBooking s.nextId f).userId) :=
    List.mem_filter.mpr ⟨hbmem, by simp⟩
  have hne : ((runCreates (Store.save s r).2 rs).2.bookings.filter
      (fun x => x.userId == (mkBooking s.nextId f).userId)).length ≠ 0 := by
    intro hlen
    rw [List.length_eq_zero] at hlen
    exact List.ne_nil_of_mem hbl hlen
  refine ⟨mkBooking s.nextId f, ?_, ?_, ?_⟩
  · simp [postBookings, hsv]
  · rw [hpost]
    simp [getUserBookings, hfok, hne]
  · rw [hpost]
    refine ⟨((runCreates (Store.save s r).2 rs).2.bookings.filter
        (fun x => x.userId == (mkBooking s.nextId f).userId)).map
        (populateBooking (runCreates (Store.save s r).2 rs).2), ?_, ?_⟩
    · simp [getUserBookings, hfok, hne]
    · exact List.mem_map_of_mem _ hbl

/-- Claim C5, witness: Scenario 1's create against the empty store followed
by one more create leaves the booking retrievable with 200. -/
theorem c5_witness :
    ∃ b, (postBookings emptyStore validReq).1.booking = some b ∧
      (getUserBookings (runCreates (postBookings emptyStore validReq).2 [validReq]).2
          b.userId).1.status = 200 ∧
      ∃ l, (getUserBookings (runCreates (postBookings emptyStore validReq).2 [validReq]).2
            b.userId).1.bookings = some l ∧
        populateBooking (runCreates (postBookings emptyStore validReq).2 [validReq]).2 b ∈ l :=
  c5_create_then_list_roundtrip emptyStore validReq validFields [validReq] rfl rfl rfl

/-- Claim C6: GET /api/bookings/:userId answers 404 exactly when the find
returns no bookings for the user, 200 with the user's bookings (restaurant
reference expanded) when it returns at least one, and 500 when the store
operation fails; a healthy find on a well-formed id returns exactly the
user's bookings in insertion order. -/
theorem c6_list_status_contract (s : Store) (u : String) :
    (∀ l s', Store.find s u = (Except.ok l, s') →
      (((getUserBookings s u).1.status = 404) ↔ l = []) ∧
      (l ≠ [] → (getUserBookings s u).1.status = 200 ∧
        (getUserBookings s u).1.bookings = some (l.map (populateBooking s)))) ∧
    (∀ m s', Store.find s u = (Except.error m, s') →
      (getUserBookings s u).1.status = 500) ∧
    (s.findFailMsg = none → isValidObjectId u = true →
      (Store.find s u).1 = Except.ok (s.bookings.filter (fun b => b.userId == u))) := by
  refine ⟨?_, ?_, ?_⟩
  · intro l s' hf
    unfold getUserBookings
    rw [hf]
    cases l with
    | nil => simp
    | cons x xs => simp
  · intro m s' hf
    unfold getUserBookings
    rw [hf]
  · intro hff hu
    rw [find_ok hff hu]

/-- Claim C6, witness: a store holding one booking for the user answers 200,
the empty store answers 404. -/
theorem c6_witness :
    (getUserBookings demoStore goodUserId).1.status = 200 ∧
    (getUserBookings emptyStore goodUserId).1.status = 404 := by
  constructor
  · exact (((c6_list_status_contract demoStore goodUserId).1 [demoBooking]
      ⟨[demoBooking], [], 1, none, none, 0, 1⟩ rfl).2 (by decide)).1
  · exact ((c6_list_status_contract emptyStore goodUserId).1 []
      ⟨[], [], 0, none, none, 0, 1⟩ rfl).1.mpr rfl

/-- Claim C7, counterexample: when the store write fails with internal
message "boom" the client response is "Server error: boom", and a different
internal message yields a different response — the body carries the
underlying exception's message text, refuting that only a generic message is
returned. -/
theorem c7_counterexample :
    (postBookings boomStore validReq).1.message = some "Server error: boom" ∧
    (postBookings zapStore validReq).1.message = some "Server error: zap" ∧
    (postBookings boomStore validReq).1.message ≠ (postBookings zapStore validReq).1.message := by
  decide

/-- Claim C7 as amended: when the store write fails, the 500 response's
message is "Server error: " concatenated with the underlying exception's
message — the internal diagnostic detail is included in the body. -/
theorem c7_amended (s : Store) (r : BookingRequest) (m : String)
    (h : s.saveFailMsg = some m) :
    (postBookings s r).1.status = 500 ∧
    (postBookings s r).1.message = some ("Server error: " ++ m) := by
  simp [postBookings, Store.save, h]

/-- Claim C7 amended, witness at the internal message "boom". -/
theorem c7_amended_witness :
    (postBookings boomStore validReq).1.status = 500 ∧
    (postBookings boomStore validReq).1.message = some ("Server error: " ++ "boom") :=
  c7_amended boomStore validReq "boom" rfl

/-- Claim C8: for every payment request with amount a in major units, the
options object passed to the gateway carries amount 100 * a in minor units,
and the 200 response echoes exactly that order. -/
theorem c8_amount_minor_units (a : Int) (c : String) (t : Nat) :
    (paymentOptions a c t).amount = 100 * a ∧
    postPayment none t a c = ⟨200, some (paymentOptions a c t), none⟩ := by
  exact ⟨mul_comm a 100, rfl⟩

/-- Claim C9, counterexample: two distinct payment calls (amount 100 INR and
amount 250 USD) in the same millisecond both succeed and receive the same
receipt identifier order_rcptid_1712345678901 — refuting that receipt ids
are distinct within the same millisecond. -/
theorem c9_counterexample :
    (postPayment none 1712345678901 100 "INR").order.map PaymentOrder.receipt =
      (postPayment none 1712345678901 250 "USD").order.map PaymentOrder.receipt ∧
    (postPayment none 1712345678901 100 "INR").order.map PaymentOrder.receipt =
      some "order_rcptid_1712345678901" ∧
    (postPayment none 1712345678901 100 "INR").order ≠
      (postPayment none 1712345678901 250 "USD").order := by
  decide

/-- Claim C9 as amended: the receipt identifier is a function of the
wall-clock millisecond alone — any two calls within the same millisecond
receive the identical receipt order_rcptid_<ms>, so distinctness holds at
most across distinct milliseconds. -/
theorem c9_amended (a1 a2 : Int) (c1 c2 : String) (t : Nat) :
    (postPayment none t a1 c1).order.map PaymentOrder.receipt =
      (postPayment none t a2 c2).order.map PaymentOrder.receipt ∧
    (postPayment none t a1 c1).order.map PaymentOrder.receipt =
      some (paymentReceipt t) :=
  ⟨rfl, rfl⟩

/-- Claim C10: for every userId string, well-formed or not, the
userAvailability route answers 200 with body echoing the userId and
availability constantly true, and returns the store unchanged (no find or
save issued, no validation). -/
theorem c10_availability_constant (s : Store) (u : String) :
    getUserAvailability s u = (⟨200, u, true⟩, s) := rfl

end Reservation
